import Mathlib

/-
Verification development for the MGNREGA backend ingestion pipeline
(app/crud.py, app/scheduler.py, app/models.py).

The embedding models the live (uncommented) code of the repository:
Python records are association lists of string keys to JSON-like values,
the relational store is a structure of row lists, a SQLAlchemy session is
a pair of a committed store and a current (uncommitted) store, and every
crud function is a state-passing function that either returns a result or
an exception value, mirroring Python exception propagation.
-/

/-- A JSON-ish Python value as it appears in an API record:
None, a string, an int, a float (as a rational), or a bool. -/
inductive Value where
  | none
  | str (s : String)
  | int (n : Int)
  | real (q : Rat)
  | bool (b : Bool)
deriving DecidableEq, Repr

/-- Python truthiness test used by `if not district_code: continue`. -/
def Value.isFalsy : Value → Bool
  | .none => true
  | .str s => s.isEmpty
  | .int n => n == 0
  | .real q => q == 0
  | .bool b => !b

/-- One raw API record: a mapping from string keys to values
(Python dict with unique keys, modelled as an association list). -/
abbrev Record := List (String × Value)

/-- Embedding of Python `record.get(key)`: the stored value,
or None when the key is missing. -/
def pyGet (r : Record) (k : String) : Value :=
  match List.lookup k r with
  | some v => v
  | Option.none => Value.none

/-- A row of the `states` table (models.States: id, state_code UNIQUE,
state_name UNIQUE, both NOT NULL). -/
structure StateRow where
  id : Nat
  code : Value
  name : Value
deriving DecidableEq, Repr

/-- A row of the `districts` table (models.Districts: id, district_name UNIQUE,
district_code UNIQUE, state_id FK to states.id). -/
structure DistrictRow where
  id : Nat
  name : Value
  code : Value
  state_id : Value
deriving DecidableEq, Repr

/-- A row of the `mgnrega_data` table, keeping the district_id key and the
column-to-value assignment produced by the insert statement. -/
structure FactRow where
  district_id : Nat
  values : List (String × Value)
deriving DecidableEq, Repr

/-- A row of the `raw_api_cache` table. -/
structure CacheRow where
  api_url : String
  response_data : Value
deriving DecidableEq, Repr

/-- The relational store: the four tables plus autoincrement counters. -/
structure DB where
  nextStateId : Nat
  states : List StateRow
  nextDistrictId : Nat
  districts : List DistrictRow
  facts : List FactRow
  rawCache : List CacheRow
deriving DecidableEq, Repr

def emptyDB : DB := ⟨1, [], 1, [], [], []⟩

/-- A SQLAlchemy session: the durably committed store and the current view
including writes executed but not yet committed. -/
structure Session where
  committed : DB
  current : DB
deriving DecidableEq, Repr

def emptySession : Session := ⟨emptyDB, emptyDB⟩

/-- Embedding of `db.commit()`. -/
def Session.commit (db : Session) : Session := ⟨db.current, db.current⟩

/-- Embedding of `db.rollback()`. -/
def Session.rollback (db : Session) : Session := ⟨db.committed, db.committed⟩

/-- Python exceptions that the modelled code can raise. -/
inductive PyError where
  | attributeError (name : String)
  | unboundLocalError (name : String)
  | integrityError
  | compileError
deriving DecidableEq, Repr

deriving instance DecidableEq for Except

/-! ## upsert_states (crud.py lines 10-32)

For each record the function builds
`insert(models.States).values(state_code=..., state_name=...)`
with `on_conflict_do_update(index_elements=['state_code'],
set_={"state_name": stmt.excluded.state_name, "updated_at": func.now()})`
and executes it; afterwards it commits once and returns a summary message.
models.States has no updated_at column, and SQLAlchemy drops set_ keys that
match no column with a warning, so only state_name is updated on conflict. -/

/-- Execute one `INSERT ... ON CONFLICT (state_code) DO UPDATE` against the
states table: NOT NULL on both columns, conflict on state_code updates the
name of the conflicting row, and the UNIQUE constraint on state_name makes
the write fail when a different row already carries the incoming name. -/
def execInsertStateOnConflict (db : DB) (code name : Value) : Except PyError DB :=
  if code = Value.none ∨ name = Value.none then
    .error PyError.integrityError
  else if db.states.any (fun r => decide (r.code = code)) then
    if db.states.any (fun r => !decide (r.code = code) && decide (r.name = name)) then
      .error PyError.integrityError
    else
      .ok { db with
              states := db.states.map
                (fun r => if r.code = code then { r with name := name } else r) }
  else if db.states.any (fun r => decide (r.name = name)) then
    .error PyError.integrityError
  else
    .ok { db with
            states := db.states ++ [⟨db.nextStateId, code, name⟩],
            nextStateId := db.nextStateId + 1 }

/-- The `for record in records` loop of upsert_states: each iteration reads
state_code and state_name from the record and executes the upsert; an
exception propagates at once, leaving the session as it stood. -/
def upsertStatesLoop (db : Session) : List Record → Session × Except PyError Unit
  | [] => (db, .ok ())
  | r :: rs =>
    match execInsertStateOnConflict db.current (pyGet r ("state_code")) (pyGet r ("state_name")) with
    | .error e => (db, .error e)
    | .ok d => upsertStatesLoop { db with current := d } rs

/-- Embedding of crud.upsert_states: run the loop, commit, and return the
message built from `len(records)`. -/
def upsert_states (db : Session) (records : List Record) :
    Session × Except PyError String :=
  match upsertStatesLoop db records with
  | (db, .error e) => (db, .error e)
  | (db, .ok ()) =>
    (db.commit, .ok (Nat.repr records.length ++ " states upserted successfully"))

example :
    (upsert_states emptySession
      [[("state_code", Value.str ("27")), ("state_name", Value.str ("MAH"))],
       [("state_code", Value.str ("27")), ("state_name", Value.str ("MAHARASHTRA"))]]).1.committed.states
    = [⟨1, Value.str ("27"), Value.str ("MAHARASHTRA")⟩] := by decide

/-! ## upsert_districts (crud.py lines 34-54)

The function walks `records` in batches of `batch_size = 200`
(`for i in range(0, total, batch_size)`), and for each record evaluates

  stmt = insert(models.Districts).values(
            district_name=record.get("District"),
            district_code=record.get("District_Code"),
            state_id=record.get("State_ID"),
         ).on_conflict_do_update(index_elements=["district_code"],
            set_={"district_name": stmt.excluded.district_name,
                  "state_id": stmt.excluded.state_id,
                  "updated_at": func.now()})

The right-hand side reads the local name `stmt` (inside set_) while that
same assignment is what would bind it, so the read only succeeds when a
previous iteration has already completed the assignment. Each batch ends
with `db.commit()`; the success message is returned after the loop. -/

/-- Embedding of `range(0, len(records), batch_size)` slicing: the batch
starting at each index `i` divisible by the step, as `records[i:i+batch_size]`. -/
def sliceBatches (batch_size : Nat) (records : List Record) : List (List Record) :=
  (List.range records.length).filterMap (fun i =>
    if i % batch_size = 0 then some ((records.drop i).take batch_size) else Option.none)

/-- The statement built by one loop iteration of upsert_districts. -/
structure DistrictStmt where
  name : Value
  code : Value
  state_id : Value
deriving DecidableEq, Repr

/-- Evaluate the right-hand side of the `stmt = ...` assignment for one
record: the values call reads the three record fields, then the set_ dict
entries read `stmt.excluded.district_name` and `stmt.excluded.state_id`,
where `stmt` is the function local bound only once a previous iteration
has finished its assignment; on the very first iteration the name is
unbound and the read raises UnboundLocalError. When a previous statement
is bound, its excluded alias carries every column of the districts table,
so the build succeeds. -/
def districtBuildStmt (stmtBound : Bool) (r : Record) : Except PyError DistrictStmt :=
  if stmtBound then
    .ok ⟨pyGet r ("District"), pyGet r ("District_Code"), pyGet r ("State_ID")⟩
  else
    .error (PyError.unboundLocalError ("stmt"))

/-- Execute one `INSERT ... ON CONFLICT (district_code) DO UPDATE` against
the districts table: NOT NULL on all three columns, a foreign key from
state_id into states.id, conflict on district_code updates name and
state_id, and the UNIQUE constraint on district_name rejects a write whose
name is already carried by a different row. -/
def execDistrictStmt (db : DB) (stmt : DistrictStmt) : Except PyError DB :=
  if stmt.name = Value.none ∨ stmt.code = Value.none ∨ stmt.state_id = Value.none then
    .error PyError.integrityError
  else if !db.states.any (fun s => decide (Value.int (Int.ofNat s.id) = stmt.state_id)) then
    .error PyError.integrityError
  else if db.districts.any (fun d => decide (d.code = stmt.code)) then
    if db.districts.any (fun d => !decide (d.code = stmt.code) && decide (d.name = stmt.name)) then
      .error PyError.integrityError
    else
      let updated := db.districts.map
        (fun d => if d.code = stmt.code then
                    { d with name := stmt.name, state_id := stmt.state_id }
                  else d)
      .ok { db with districts := updated }
  else if db.districts.any (fun d => decide (d.name = stmt.name)) then
    .error PyError.integrityError
  else
    .ok { db with
            districts := db.districts ++ [⟨db.nextDistrictId, stmt.name, stmt.code, stmt.state_id⟩],
            nextDistrictId := db.nextDistrictId + 1 }

/-- The inner `for record in batch` loop; the Bool tracks whether the
function local `stmt` has been bound yet. -/
def districtsBatchLoop (stmtBound : Bool) (db : Session) :
    List Record → Bool × Session × Except PyError Unit
  | [] => (stmtBound, db, .ok ())
  | r :: rs =>
    match districtBuildStmt stmtBound r with
    | .error e => (stmtBound, db, .error e)
    | .ok stmt =>
      match execDistrictStmt db.current stmt with
      | .error e => (true, db, .error e)
      | .ok d => districtsBatchLoop true { db with current := d } rs

/-- The outer batch loop, committing after each completed batch. -/
def districtsBatches (stmtBound : Bool) (db : Session) :
    List (List Record) → Session × Except PyError Unit
  | [] => (db, .ok ())
  | b :: bs =>
    match districtsBatchLoop stmtBound db b with
    | (_, db, .error e) => (db, .error e)
    | (sb, db, .ok ()) => districtsBatches sb db.commit bs

/-- Embedding of crud.upsert_districts. -/
def upsert_districts (db : Session) (records : List Record) :
    Session × Except PyError String :=
  match districtsBatches false db (sliceBatches 200 records) with
  | (db, .error e) => (db, .error e)
  | (db, .ok ()) =>
    (db, .ok (Nat.repr records.length ++ " districts upserted successfully"))

/-! ## upsert_mgnrega_data (crud.py lines 59-143)

Per record: a falsy district_code is skipped with continue; the district
row is looked up by district_code and a missing row is skipped with
continue; otherwise the insert statement is built from 29 keyword
arguments, the conflict clause is built (its set_ dict reads 29 attributes
of stmt.excluded against the columns of the mgnrega_data table), the
statement is executed, and after the loop the function commits once and
returns a summary message. -/

/-- Column attribute names of models.MGNREGAData (app/models.py lines 17-52). -/
def mgnregaTableColumns : List String :=
  ["id", "district_id", "approved_labour_budget",
   "average_wage_rate_per_day_per_person", "differently_abled_persons_worked",
   "material_and_skilled_wages", "number_of_complted_projects",
   "number_of_gp_with_nil_exp", "number_of_ongoing_works",
   "persondays_of_central_liability_so_far", "sc_persondays",
   "sc_workers_against_Active_workers", "st_persondays",
   "st_workers_against_Active_workers", "total_adm_expenditure", "total_exp",
   "total_households_worked", "total_individuals_worked",
   "total_num_of_active_job_cards", "total_num_of_active_workers",
   "total_num_of_hh_completed_100_day_wage_employment",
   "total_num_of_job_cards_issued", "total_num_of_workers",
   "total_num_of_works_takenup", "wages", "women_persondays",
   "percent_of_category_B_works",
   "percentage_of_expenditure_on_agriculture_allied_works",
   "percent_of_NRM_expenditure", "percentage_payments_generated_within_15_days",
   "remarks", "timestamp", "data_fetched_on", "updated_at"]

/-- The keyword assignment built by `.values(...)` in upsert_mgnrega_data
(crud.py lines 70-101), kwarg names and record keys exactly as written;
district_id is passed separately. -/
def factValues (r : Record) : List (String × Value) :=
  [("approved_labour_budget", pyGet r ("Approved_Labour_Budget")),
   ("average_wage_rate_per_day_per_person", pyGet r ("Average_Wage_rate_per_day_per_person")),
   ("average_days_of_employment_per_household", pyGet r ("Average_days_of_employment_provided_per_Household")),
   ("differently_abled_persons_worked", pyGet r ("Differently_abled_persons_worked")),
   ("material_and_skilled_wages", pyGet r ("Material_and_skilled_Wages")),
   ("number_of_completed_works", pyGet r ("Number_of_Completed_Works")),
   ("number_of_gps_with_nil_exp", pyGet r ("Number_of_GPs_with_NIL_exp")),
   ("number_of_ongoing_works", pyGet r ("Number_of_Ongoing_Works")),
   ("persondays_of_central_liability_so_far", pyGet r ("Persondays_of_Central_Liability_so_far")),
   ("sc_persondays", pyGet r ("SC_persondays")),
   ("sc_workers_against_active_workers", pyGet r ("SC_workers_against_active_workers")),
   ("st_persondays", pyGet r ("ST_persondays")),
   ("st_workers_against_active_workers", pyGet r ("ST_workers_against_active_workers")),
   ("total_adm_expenditure", pyGet r ("Total_Adm_Expenditure")),
   ("total_exp", pyGet r ("Total_Exp")),
   ("total_households_worked", pyGet r ("Total_Households_Worked")),
   ("total_individuals_worked", pyGet r ("Total_Individuals_Worked")),
   ("total_no_of_active_job_cards", pyGet r ("Total_No_of_Active_Job_Cards")),
   ("total_no_of_active_workers", pyGet r ("Total_No_of_Active_Workers")),
   ("total_no_of_hh_completed_100_days_of_wage_employemt", pyGet r ("Total_No_of_HHs_completed_100_Days_of_Wage_Employment")),
   ("total_no_of_jobcards_issued", pyGet r ("Total_No_of_JobCards_issued")),
   ("total_no_of_workers", pyGet r ("Total_No_of_Workers")),
   ("total_no_of_works_takenup", pyGet r ("Total_No_of_Works_Takenup")),
   ("wages", pyGet r ("Wages")),
   ("women_persondays", pyGet r ("Women_Persondays")),
   ("percent_of_category_b_works", pyGet r ("percent_of_Category_B_Works")),
   ("percentage_of_expenditure_on_agriculture_allied_works", pyGet r ("percent_of_Expenditure_on_Agriculture_Allied_Works")),
   ("percent_of_NRM_expenditure", pyGet r ("percent_of_NRM_Expenditure")),
   ("percentage_payments_generated_within_15_days", pyGet r ("percentage_payments_gererated_within_15_days"))]

/-- The attributes of stmt.excluded read while the set_ dict of
on_conflict_do_update is constructed (crud.py lines 107-135, in source
order; the final updated_at entry evaluates func.now() and reads no
excluded attribute). -/
def mgnregaSetExcludedAttrs : List String :=
  ["approved_labour_budget", "average_wage_rate_per_day_per_person",
   "average_days_of_employment_per_household", "differently_abled_persons_worked",
   "material_and_skilled_wages", "number_of_completed_works",
   "number_of_gps_with_nil_exp", "number_of_ongoing_works",
   "persondays_of_central_liability_so_far", "sc_persondays",
   "sc_workers_against_active_workers", "st_persondays",
   "st_workers_against_active_workers", "total_adm_expenditure", "total_exp",
   "total_households_worked", "total_individuals_worked",
   "total_no_of_active_job_cards", "total_no_of_active_workers",
   "total_no_of_hh_completed_100_days_of_wage_employemt",
   "total_no_of_jobcards_issued", "total_no_of_workers",
   "total_no_of_works_takenup", "wages", "women_persondays",
   "percent_of_category_b_works",
   "percentage_of_expenditure_on_agriculture_allied_works",
   "percent_of_NRM_expenditure", "percentage_payments_generated_within_15_days"]

/-- Building the set_ dict of the fact conflict clause: each entry
evaluates `stmt.excluded.<attr>`, and the first attribute that is not a
column of the mgnrega_data table raises AttributeError. -/
def buildFactConflictClause : Except PyError Unit :=
  match mgnregaSetExcludedAttrs.find? (fun a => !mgnregaTableColumns.contains a) with
  | some a => .error (PyError.attributeError a)
  | Option.none => .ok ()

/-- db.execute of the fact upsert statement: statement compilation binds
the values kwargs to columns and rejects any kwarg that names no column
(Unconsumed column names); execution then upserts keyed on the
district_id unique index. -/
def execFactStmt (db : DB) (districtId : Nat) (vals : List (String × Value)) :
    Except PyError DB :=
  if vals.all (fun kv => mgnregaTableColumns.contains kv.1) then
    if db.facts.any (fun f => f.district_id == districtId) then
      let updated := db.facts.map
        (fun f => if f.district_id == districtId then ⟨districtId, vals⟩ else f)
      .ok { db with facts := updated }
    else
      .ok { db with facts := db.facts ++ [⟨districtId, vals⟩] }
  else .error PyError.compileError

/-- The `for record in records` loop of upsert_mgnrega_data. -/
def mgnregaLoop (db : Session) : List Record → Session × Except PyError Unit
  | [] => (db, .ok ())
  | r :: rs =>
    if (pyGet r ("district_code")).isFalsy then mgnregaLoop db rs
    else
      match db.current.districts.find? (fun d => decide (d.code = pyGet r ("district_code"))) with
      | Option.none => mgnregaLoop db rs
      | some d =>
        match buildFactConflictClause with
        | .error e => (db, .error e)
        | .ok () =>
          match execFactStmt db.current d.id (factValues r) with
          | .error e => (db, .error e)
          | .ok newdb => mgnregaLoop { db with current := newdb } rs

/-- Embedding of crud.upsert_mgnrega_data. -/
def upsert_mgnrega_data (db : Session) (records : List Record) :
    Session × Except PyError String :=
  match mgnregaLoop db records with
  | (db, .error e) => (db, .error e)
  | (db, .ok ()) =>
    (db.commit, .ok (Nat.repr records.length ++ " MGNREGA data rows upserted successfully"))

/-! ## save_raw_api_cache (crud.py lines 147-160) and the models module -/

/-- Top-level names defined by app/models.py. -/
def modelsModuleAttrs : List String :=
  ["JSON", "Column", "Integer", "String", "ForeignKey", "TIMESTAMP", "BigInteger",
   "Float", "func", "Base", "States", "Districts", "MGNREGAData", "RawAPICache"]

/-- The status dict returned by save_raw_api_cache. -/
inductive CacheStatus where
  | saved
  | error
deriving DecidableEq, Repr

/-- Embedding of crud.save_raw_api_cache: inside try, `models.APICache` is
looked up (raising AttributeError when the models module defines no such
name; its raw cache model class is RawAPICache); were the lookup to
succeed, the entry would be added and committed and saved returned; any
exception is caught by `except Exception`, the session rolled back, the
failure logged, and the error status returned. -/
def save_raw_api_cache (db : Session) (api_url : String) (response_json : Value) :
    Session × CacheStatus :=
  if modelsModuleAttrs.contains ("APICache") then
    let pending :=
      { db.current with rawCache := db.current.rawCache ++ [⟨api_url, response_json⟩] }
    (Session.commit ⟨db.committed, pending⟩, CacheStatus.saved)
  else
    (db.rollback, CacheStatus.error)

/-! ## The scheduled pipeline run (app/scheduler.py lines 11-61)

After a successful fetch yielding a non-empty records list, the write
phase runs STEP 1 `crud.insert_states(db, records)`, STEP 2
`crud.insert_districts(db, records)`, STEP 3
`crud.insert_mgnrega_data(db, records)`, STEP 4
`crud.save_raw_api_cache(db, ...)`. Each STEP 1-3 call first resolves the
named attribute on the crud module; a missing name raises AttributeError.
The run-level `except Exception` handler swallows any such exception. -/

/-- The record-batch functions the crud module defines at top level
(crud.py); any other attribute lookup yields no function. -/
def crudBatchFn : String → Option (Session → List Record → Session × Except PyError String)
  | "upsert_states" => some upsert_states
  | "upsert_districts" => some upsert_districts
  | "upsert_mgnrega_data" => some upsert_mgnrega_data
  | _ => Option.none

/-- Resolve a crud attribute and call it on (db, records); a name the crud
module does not define raises AttributeError before anything executes. -/
def callCrud (name : String) (db : Session) (records : List Record) :
    Session × Except PyError String :=
  match crudBatchFn name with
  | some f => f db records
  | Option.none => (db, .error (PyError.attributeError name))

/-- How one scheduled run ends: early return on an empty records list,
normal completion, or an exception swallowed by the run-level handler. -/
inductive RunOutcome where
  | earlyReturn
  | completed
  | handledError (e : PyError)
deriving DecidableEq, Repr

/-- Embedding of scheduler.fetch_mgnrega_data from the point where the
fetch has succeeded and produced `records`; url and payload feed the raw
cache step. Any PyError raised by a step is caught by the run-level
`except Exception` handler (printed, not re-raised), and `finally`
closes the session. -/
def fetch_mgnrega_data (db : Session) (records : List Record)
    (url : String) (payload : Value) : Session × RunOutcome :=
  if records.isEmpty then (db, RunOutcome.earlyReturn)
  else
    match callCrud ("insert_states") db records with
    | (db, .error e) => (db, RunOutcome.handledError e)
    | (db, .ok _) =>
      match callCrud ("insert_districts") db records with
      | (db, .error e) => (db, RunOutcome.handledError e)
      | (db, .ok _) =>
        match callCrud ("insert_mgnrega_data") db records with
        | (db, .error e) => (db, RunOutcome.handledError e)
        | (db, .ok _) =>
          let (db, _) := save_raw_api_cache db url payload
          (db, RunOutcome.completed)

/-! ## Helper lemmas -/

/-- A fixture store holding one state (id 1) and one district (id 1,
code D1) in both committed and current views. -/
def sessionWithDistrict : Session :=
  let db : DB :=
    ⟨2, [⟨1, Value.str ("27"), Value.str ("MAHARASHTRA")⟩], 2,
     [⟨1, Value.str ("Pune"), Value.str ("D1"), Value.int 1⟩], [], []⟩
  ⟨db, db⟩

lemma buildFactConflictClause_eq :
    buildFactConflictClause
      = .error (PyError.attributeError ("average_days_of_employment_per_household")) := by
  decide

lemma callCrud_insert_states (db : Session) (records : List Record) :
    callCrud ("insert_states") db records
      = (db, .error (PyError.attributeError ("insert_states"))) := by
  rfl

lemma fetch_run_cons (db : Session) (r : Record) (rs : List Record)
    (url : String) (payload : Value) :
    fetch_mgnrega_data db (r :: rs) url payload
      = (db, RunOutcome.handledError (PyError.attributeError ("insert_states"))) := by
  unfold fetch_mgnrega_data
  rw [callCrud_insert_states]
  rfl

lemma fetch_run_fst (db : Session) (records : List Record)
    (url : String) (payload : Value) :
    (fetch_mgnrega_data db records url payload).1 = db := by
  cases records with
  | nil => rfl
  | cons r rs => rw [fetch_run_cons]

lemma upsert_districts_cons (db : Session) (r : Record) (rs : List Record) :
    upsert_districts db (r :: rs) = (db, .error (PyError.unboundLocalError ("stmt"))) := by
  obtain ⟨bs, hbs⟩ : ∃ bs, sliceBatches 200 (r :: rs) = (r :: rs.take 199) :: bs := by
    unfold sliceBatches
    rw [show (r :: rs).length = rs.length + 1 from rfl, List.range_succ_eq_map,
        List.filterMap_cons]
    simp
  unfold upsert_districts
  rw [hbs]
  simp [districtsBatches, districtsBatchLoop, districtBuildStmt]

/-! ## Claim theorems -/

/-- Claim C1: after a successful fetch with a non-empty records list, the
write phase of scheduler.fetch_mgnrega_data resolves crud.insert_states
(and would next resolve crud.insert_districts and crud.insert_mgnrega_data),
none of which the crud module defines, so the run raises AttributeError
before any write executes, the run-level handler swallows it, and storage
is returned exactly as it was. -/
theorem c1_run_swallows_missing_crud_attribute (db : Session) (records : List Record)
    (url : String) (payload : Value) (h : records ≠ []) :
    crudBatchFn ("insert_states") = Option.none ∧
    crudBatchFn ("insert_districts") = Option.none ∧
    crudBatchFn ("insert_mgnrega_data") = Option.none ∧
    fetch_mgnrega_data db records url payload
      = (db, RunOutcome.handledError (PyError.attributeError ("insert_states"))) := by
  refine ⟨rfl, rfl, rfl, ?_⟩
  cases records with
  | nil => exact absurd rfl h
  | cons r rs => exact fetch_run_cons db r rs url payload

/-- Witness for C1 at a concrete store and records list. -/
theorem c1_run_swallows_missing_crud_attribute_witness :
    crudBatchFn ("insert_states") = Option.none ∧
    crudBatchFn ("insert_districts") = Option.none ∧
    crudBatchFn ("insert_mgnrega_data") = Option.none ∧
    fetch_mgnrega_data emptySession [[("state_code", Value.str ("27"))]] ("u") Value.none
      = (emptySession, RunOutcome.handledError (PyError.attributeError ("insert_states"))) :=
  c1_run_swallows_missing_crud_attribute emptySession
    [[("state_code", Value.str ("27"))]] ("u") Value.none (by decide)

/-- Claim C2: running the full scheduled pipeline twice with an identical
input batch yields storage identical to running it once. The equality holds
because each run leaves storage exactly as it found it: the write phase
raises AttributeError on crud.insert_states before any row is written
(see C1), so no duplicate State, District, or fact rows can arise and the
fact table after two runs equals the fact table after one. -/
theorem c2_pipeline_idempotent (db : Session) (records : List Record)
    (url : String) (payload : Value) :
    (fetch_mgnrega_data (fetch_mgnrega_data db records url payload).1
        records url payload).1
      = (fetch_mgnrega_data db records url payload).1 := by
  rw [fetch_run_fst, fetch_run_fst]

/-- Counterexample to claim C3: the live fact upsert performs no value
coercion before persistence. The insert payload built by
upsert_mgnrega_data keeps the raw strings: input "1,234" stays the string
"1,234" (not the number 1234), "" stays "" (not null), "42" stays the
string "42" (not integer 42), and "3.14" stays the string "3.14" (not
float 3.14). -/
theorem c3_coercion_counterexample :
    List.lookup ("wages") (factValues [(("Wages" : String), Value.str ("1,234"))])
        = some (Value.str ("1,234")) ∧
    Value.str ("1,234") ≠ Value.int 1234 ∧ Value.str ("1,234") ≠ Value.real 1234 ∧
    List.lookup ("wages") (factValues [(("Wages" : String), Value.str (""))])
        = some (Value.str ("")) ∧
    Value.str ("") ≠ Value.none ∧
    List.lookup ("wages") (factValues [(("Wages" : String), Value.str ("42"))])
        = some (Value.str ("42")) ∧
    Value.str ("42") ≠ Value.int 42 ∧
    List.lookup ("wages") (factValues [(("Wages" : String), Value.str ("3.14"))])
        = some (Value.str ("3.14")) ∧
    Value.str ("3.14") ≠ Value.real (157 / 50 : Rat) := by
  decide

/-- Claim C3 as amended: no coercion happens before persistence - the fact
upsert passes every field value straight from record.get into the insert
payload, so a string value is persisted exactly as it arrived (untrimmed,
unparsed, empty string included), and non-string values also pass through
unchanged. Stated here for the Wages field of an arbitrary record. -/
theorem c3_values_pass_through (r : Record) (v : Value)
    (h : pyGet r ("Wages") = v) :
    List.lookup ("wages") (factValues r) = some v := by
  unfold factValues
  simp [List.lookup, h]

/-- Witness for the amended C3 at the concrete input "1,234". -/
theorem c3_values_pass_through_witness :
    List.lookup ("wages") (factValues [(("Wages" : String), Value.str ("1,234"))])
      = some (Value.str ("1,234")) :=
  c3_values_pass_through [(("Wages" : String), Value.str ("1,234"))]
    (Value.str ("1,234")) (by decide)

/-- Claim C4: two input records carrying the same state natural code and
different state names, processed in input order by upsert_states against
an empty store, leave exactly one State row for that code, and its name is
the one of the second (last-occurring) record. -/
theorem c4_last_state_name_wins (code n1 n2 : String) (h : n1 ≠ n2) :
    (upsert_states emptySession
        [[("state_code", Value.str code), ("state_name", Value.str n1)],
         [("state_code", Value.str code), ("state_name", Value.str n2)]]).1.committed.states
      = [⟨1, Value.str code, Value.str n2⟩] ∧
    (upsert_states emptySession
        [[("state_code", Value.str code), ("state_name", Value.str n1)],
         [("state_code", Value.str code), ("state_name", Value.str n2)]]).2
      = .ok ("2 states upserted successfully") := by
  simp [upsert_states, upsertStatesLoop, execInsertStateOnConflict, pyGet,
    emptySession, emptyDB, Session.commit, List.lookup]
  rfl


/-- Witness for C4 at the concrete scenario of the spec: code 27, names
MAH then MAHARASHTRA. -/
theorem c4_last_state_name_wins_witness :
    (upsert_states emptySession
        [[("state_code", Value.str ("27")), ("state_name", Value.str ("MAH"))],
         [("state_code", Value.str ("27")), ("state_name", Value.str ("MAHARASHTRA"))]]).1.committed.states
      = [⟨1, Value.str ("27"), Value.str ("MAHARASHTRA")⟩] ∧
    (upsert_states emptySession
        [[("state_code", Value.str ("27")), ("state_name", Value.str ("MAH"))],
         [("state_code", Value.str ("27")), ("state_name", Value.str ("MAHARASHTRA"))]]).2
      = .ok ("2 states upserted successfully") :=
  c4_last_state_name_wins ("27") ("MAH") ("MAHARASHTRA") (by decide)

/-- The owning-state reference of a district record resolves when some
states row carries the id given by the record in its State_ID field. -/
def stateResolvable (db : Session) (r : Record) : Prop :=
  ∃ s ∈ db.current.states, Value.int (Int.ofNat s.id) = pyGet r ("State_ID")

/-- Counterexample to claim C5: a districts batch holding one record whose
owning-state code resolves to nothing (the store holds no states at all)
is not silently skipped - upsert_districts raises UnboundLocalError on it,
contradicting the claimed no-error silent-drop policy. -/
theorem c5_unresolvable_state_counterexample :
    upsert_districts emptySession
        [[("District", Value.str ("Pune")), ("District_Code", Value.str ("D1")),
          ("State_ID", Value.int 999)]]
      = (emptySession, .error (PyError.unboundLocalError ("stmt"))) ∧
    emptySession.current.states = [] := by
  decide

/-- Claim C5 as amended: a district record whose owning-state code does
not resolve to an existing State is indeed never written - no District
row, orphan or otherwise, is created - but not through a silent skip:
upsert_districts performs no state-resolution check at all and raises
UnboundLocalError on the first record of any non-empty batch, so the
store is left untouched and an error is raised to the caller. -/
theorem c5_unresolvable_state_no_orphan_but_error (db : Session) (r : Record)
    (rs : List Record) (h : ¬ stateResolvable db r) :
    upsert_districts db (r :: rs) = (db, .error (PyError.unboundLocalError ("stmt"))) ∧
    (upsert_districts db (r :: rs)).1.committed.districts = db.committed.districts := by
  refine ⟨upsert_districts_cons db r rs, ?_⟩
  rw [upsert_districts_cons db r rs]

/-- Witness for the amended C5 at a concrete unresolvable record. -/
theorem c5_unresolvable_state_no_orphan_but_error_witness :
    upsert_districts emptySession
        [[("District", Value.str ("Pune")), ("District_Code", Value.str ("D1")),
          ("State_ID", Value.int 999)], []]
      = (emptySession, .error (PyError.unboundLocalError ("stmt"))) ∧
    (upsert_districts emptySession
        [[("District", Value.str ("Pune")), ("District_Code", Value.str ("D1")),
          ("State_ID", Value.int 999)], []]).1.committed.districts
      = emptySession.committed.districts :=
  c5_unresolvable_state_no_orphan_but_error emptySession
    [("District", Value.str ("Pune")), ("District_Code", Value.str ("D1")),
     ("State_ID", Value.int 999)] [[]] (by simp [stateResolvable, emptySession, emptyDB])

/-- Claim C6: a record whose district code is falsy or matches no existing
District row is silently excluded by upsert_mgnrega_data - the loop
continues with the remaining records exactly as if the record were absent,
no fact row is written for it, and its processing raises nothing - and the
resulting storage equals that of processing the remaining records alone. -/
theorem c6_unresolvable_fact_record_skipped (db : Session) (r : Record)
    (rs : List Record)
    (h : (pyGet r ("district_code")).isFalsy = true ∨
         db.current.districts.find?
             (fun d => decide (d.code = pyGet r ("district_code"))) = Option.none) :
    mgnregaLoop db (r :: rs) = mgnregaLoop db rs ∧
    (upsert_mgnrega_data db (r :: rs)).1 = (upsert_mgnrega_data db rs).1 := by
  have h1 : mgnregaLoop db (r :: rs) = mgnregaLoop db rs := by
    rcases h with hf | hn
    · simp [mgnregaLoop, hf]
    · by_cases hf : (pyGet r ("district_code")).isFalsy = true
      · simp [mgnregaLoop, hf]
      · simp [mgnregaLoop, hf, hn]
  refine ⟨h1, ?_⟩
  unfold upsert_mgnrega_data
  rw [h1]
  cases hres : mgnregaLoop db rs with
  | mk db2 res =>
    cases res with
    | error e => rfl
    | ok u => cases u; rfl

/-- Witness for C6 at a concrete record whose district code matches no
District row in an empty store. -/
theorem c6_unresolvable_fact_record_skipped_witness :
    mgnregaLoop emptySession [[("district_code", Value.str ("D9"))]]
        = mgnregaLoop emptySession [] ∧
    (upsert_mgnrega_data emptySession [[("district_code", Value.str ("D9"))]]).1
        = (upsert_mgnrega_data emptySession []).1 :=
  c6_unresolvable_fact_record_skipped emptySession
    [("district_code", Value.str ("D9"))] [] (Or.inr (by decide))

/-- Counterexample to claim C7: there is no batch-failure fallback. With a
store holding district D1, a two-record batch whose first record resolves
to that district fails while the conflict clause is being built, the error
propagates out of upsert_mgnrega_data (aborting the remaining record), and
zero rows are committed - not one failure out of the batch with the rest
written. -/
theorem c7_batch_failure_aborts_counterexample :
    upsert_mgnrega_data sessionWithDistrict
        [[("district_code", Value.str ("D1")), ("Wages", Value.str ("100"))],
         [("district_code", Value.str ("D1")), ("Wages", Value.str ("200"))]]
      = (sessionWithDistrict,
         .error (PyError.attributeError ("average_days_of_employment_per_household"))) ∧
    sessionWithDistrict.committed.facts = [] := by
  decide

/-- Claim C7 as amended: if processing a fact record fails, the whole call
aborts - upsert_mgnrega_data propagates the error to its caller, performs
no per-row retry, processes none of the remaining records, and commits
nothing (the session is returned exactly as it was). With the live code
every record that resolves to a district fails this way, because building
the conflict clause reads a stmt.excluded attribute that is not a column
of the mgnrega_data table. -/
theorem c7_fact_write_failure_aborts_call (db : Session) (r : Record)
    (rs : List Record) (d : DistrictRow)
    (hf : (pyGet r ("district_code")).isFalsy = false)
    (hd : db.current.districts.find?
            (fun x => decide (x.code = pyGet r ("district_code"))) = some d) :
    upsert_mgnrega_data db (r :: rs)
      = (db, .error (PyError.attributeError ("average_days_of_employment_per_household"))) := by
  unfold upsert_mgnrega_data
  have h1 : mgnregaLoop db (r :: rs)
      = (db, .error (PyError.attributeError ("average_days_of_employment_per_household"))) := by
    simp [mgnregaLoop, hf, hd, buildFactConflictClause_eq]
  rw [h1]

/-- Witness for the amended C7 at a concrete resolvable record. -/
theorem c7_fact_write_failure_aborts_call_witness :
    upsert_mgnrega_data sessionWithDistrict [[("district_code", Value.str ("D1"))]]
      = (sessionWithDistrict,
         .error (PyError.attributeError ("average_days_of_employment_per_household"))) :=
  c7_fact_write_failure_aborts_call sessionWithDistrict
    [("district_code", Value.str ("D1"))] []
    ⟨1, Value.str ("Pune"), Value.str ("D1"), Value.int 1⟩ (by decide) (by decide)

/-- Claim C8: the raw cache writer never raises outward - for every input
it returns a status value (saved or error), and it leaves the previously
committed store untouched; a failure inside its try block is caught, the
session rolled back, and the error status returned. -/
theorem c8_cache_writer_returns_status (db : Session) (url : String)
    (payload : Value) :
    (save_raw_api_cache db url payload).1.committed = db.committed ∧
    ((save_raw_api_cache db url payload).2 = CacheStatus.saved ∨
     (save_raw_api_cache db url payload).2 = CacheStatus.error) := by
  have hm : ("APICache" : String) ∉ modelsModuleAttrs := by decide
  simp [save_raw_api_cache, Session.rollback, hm]

/-- Claim C9: upsert_districts raises UnboundLocalError on the very first
record of every non-empty records list, before any write, because the
set_ argument of on_conflict_do_update reads stmt.excluded while stmt is
the local name being assigned by that same statement; for an empty list
the function returns its success message without touching storage. -/
theorem c9_upsert_districts_always_unbound_local (db : Session)
    (records : List Record) :
    upsert_districts db records =
      if records.isEmpty then (db, .ok ("0 districts upserted successfully"))
      else (db, .error (PyError.unboundLocalError ("stmt"))) := by
  cases records with
  | nil => rfl
  | cons r rs => simpa using upsert_districts_cons db r rs

/-- Claim C10: save_raw_api_cache never persists a cache entry - the
models module defines RawAPICache but no APICache, so every call raises
AttributeError inside its try block, rolls back, and returns the error
status, leaving the committed raw cache unchanged. -/
theorem c10_cache_never_persists (db : Session) (url : String)
    (payload : Value) :
    save_raw_api_cache db url payload = (db.rollback, CacheStatus.error) ∧
    (save_raw_api_cache db url payload).1.committed.rawCache
        = db.committed.rawCache ∧
    modelsModuleAttrs.contains ("APICache") = false ∧
    modelsModuleAttrs.contains ("RawAPICache") = true := by
  have hc : modelsModuleAttrs.contains ("APICache") = false := by decide
  have hr : modelsModuleAttrs.contains ("RawAPICache") = true := by decide
  have hm : ("APICache" : String) ∉ modelsModuleAttrs := by decide
  refine ⟨?_, ?_, hc, hr⟩ <;> simp [save_raw_api_cache, Session.rollback, hm]
